import Mathlib

/-!
Verification development for two sub-models of a solar-thermal desalination
flowsheet package:

* `lt_med_surrogate.py` — the LT-MED cost/flow equation block and its
  parameter block (`build_lt_med_surrogate_cost_param_block`,
  `cost_lt_med_surrogate`);
* `trough_surrogate.py` — the parabolic-trough surrogate unit model
  (`TroughSurrogateData`: `build`, `calculate_scaling_factors`,
  `_create_rbf_surrogate`, `_get_surrogate_data`).

The embedding below models: the dimensional content of every Pyomo variable
and constraint of the costing block (a small dimension algebra over ℚ
exponents), the real-valued cost expressions themselves, the scaling-factor
suffix update, the stdout-redirection effect, the temporary-file cleanup
effect, and the dataset sampling / training-validation split pipeline.
-/

namespace WatertapSeto

/-! ## Dimension algebra

Physical dimensions with rational exponents over the base dimensions
length (m), mass (kg), time (s) and currency (the costing package's
`base_currency`).  Only dimensions matter for unit-consistency questions;
magnitudes (`pyo.units.convert` scale factors) do not change them. -/

structure Dims where
  length : ℚ
  mass : ℚ
  time : ℚ
  currency : ℚ
deriving DecidableEq

def Dims.mul (a b : Dims) : Dims :=
  ⟨a.length + b.length, a.mass + b.mass, a.time + b.time, a.currency + b.currency⟩

def Dims.dpow (a : Dims) (q : ℚ) : Dims :=
  ⟨a.length * q, a.mass * q, a.time * q, a.currency * q⟩

/-- Source: `pyo.units.dimensionless` -/
def U.dimensionless : Dims := ⟨0, 0, 0, 0⟩

/-- Source: `costing.base_currency` -/
def U.base_currency : Dims := ⟨0, 0, 0, 1⟩

/-- Source: `pyo.units.kWh` (an energy: kg·m²/s² up to scale) -/
def U.kWh : Dims := ⟨2, 1, -2, 0⟩

/-- Source: `pyo.units.hr` -/
def U.hour : Dims := ⟨0, 0, 1, 0⟩

/-- Source: `pyo.units.MW` (a power: kg·m²/s³ up to scale) -/
def U.MW : Dims := ⟨2, 1, -3, 0⟩

/-- Source: `pyo.units.m**3 / pyo.units.day` -/
def U.m3_per_day : Dims := ⟨3, 0, -1, 0⟩

/-- Source: `pyo.units.m**3 / pyo.units.year` -/
def U.m3_per_year : Dims := ⟨3, 0, -1, 0⟩

/-- Source: `costing.base_currency / pyo.units.m**3` -/
def U.currency_per_m3 : Dims := ⟨-3, 0, 0, 1⟩

/-- Source: `costing.base_currency / pyo.units.kWh` -/
def U.currency_per_kWh : Dims := ⟨-2, -1, 2, 1⟩

/-- Source: `pyo.units.kWh / pyo.units.m**3` -/
def U.kWh_per_m3 : Dims := ⟨-1, 1, -2, 0⟩

/-- Source: `pyo.units.m**2 / (pyo.units.kg / pyo.units.s)` = m²·s/kg -/
def U.m2_s_per_kg : Dims := ⟨2, -1, 1, 0⟩

/-- Source: `costing.base_currency / pyo.units.year` -/
def U.currency_per_year : Dims := ⟨0, 0, -1, 1⟩

/-- dimensions of a mass density, kg/m³ (`feed.dens_mass_phase["Liq"]`) -/
def U.kg_per_m3 : Dims := ⟨-3, 1, 0, 0⟩

/-! Units of algebraic expressions.  `none` means the expression has no
well-defined dimension (a sum of incommensurable terms).  Multiplication
always combines; addition/equality requires both sides to agree;
`pyo.units.convert` keeps the dimension and is well-formed only when the
argument already carries the target dimension. -/

def uadd : Option Dims → Option Dims → Option Dims
  | some a, some b => if a = b then some a else none
  | _, _ => none

def umul : Option Dims → Option Dims → Option Dims
  | some a, some b => some (a.mul b)
  | _, _ => none

def upow (u : Option Dims) (q : ℚ) : Option Dims :=
  u.map (fun a => a.dpow q)

def uconvert (u : Option Dims) (target : Dims) : Option Dims :=
  match u with
  | some a => if a = target then some target else none
  | none => none

/-! ## Pyomo variables of the LT-MED costing model

A `pyo.Var` as the source constructs it: an initial value, optional lower
and upper bounds, and units. -/

structure PyomoVar where
  initVal : ℚ
  lb : Option ℚ
  ub : Option ℚ
  units : Dims
deriving DecidableEq

/-- the variables created by `build_lt_med_surrogate_cost_param_block` -/
structure LtMedParamBlock where
  cost_fraction_evaporator : PyomoVar
  cost_fraction_maintenance : PyomoVar
  cost_fraction_insurance : PyomoVar
  cost_storage_per_kwh : PyomoVar
  cost_chemicals_per_vol_dist : PyomoVar
  cost_labor_per_vol_dist : PyomoVar
  cost_misc_per_vol_dist : PyomoVar
  cost_disposal_per_vol_brine : PyomoVar
  specific_electric_energy_consumption : PyomoVar
  med_sys_A_coeff : PyomoVar
  med_sys_B_coeff : PyomoVar
  med_sys_C_coeff : PyomoVar
  med_sys_D_coeff : PyomoVar
deriving DecidableEq

/-- Source: `build_lt_med_surrogate_cost_param_block`, variable by variable, with the
bounds, units and `initialize=` values of the source. -/
def build_lt_med_surrogate_cost_param_block : LtMedParamBlock where
  cost_fraction_evaporator := ⟨0.4, some 0, none, U.dimensionless⟩
  cost_fraction_maintenance := ⟨0.02, some 0, none, U.dimensionless⟩
  cost_fraction_insurance := ⟨0.005, some 0, none, U.dimensionless⟩
  cost_storage_per_kwh := ⟨26, some 0, none, U.currency_per_kWh⟩
  cost_chemicals_per_vol_dist := ⟨0.04, some 0, none, U.currency_per_m3⟩
  cost_labor_per_vol_dist := ⟨0.033, some 0, none, U.currency_per_m3⟩
  cost_misc_per_vol_dist := ⟨0.033, some 0, none, U.currency_per_m3⟩
  cost_disposal_per_vol_brine := ⟨0.02, some 0, none, U.currency_per_m3⟩
  specific_electric_energy_consumption := ⟨1.5, some 0, none, U.kWh_per_m3⟩
  med_sys_A_coeff := ⟨6291, none, none, U.dimensionless⟩
  med_sys_B_coeff := ⟨-0.135, none, none, U.dimensionless⟩
  med_sys_C_coeff := ⟨302.01, none, none, U.dimensionless⟩
  med_sys_D_coeff := ⟨0.8, none, none, U.dimensionless⟩

/-- the variables created in the body of `cost_lt_med_surrogate` itself -/
structure LtMedCostVars where
  system_cost : PyomoVar
  heat_exchanger_specific_area : PyomoVar
  thermal_storage_capacity : PyomoVar
  hours_thermal_storage : PyomoVar
deriving DecidableEq

/-- the four `pyo.Var`s of `cost_lt_med_surrogate`: none of them is given a
`bounds=` argument in the source, so lower and upper bounds are absent. -/
def cost_lt_med_surrogate_vars : LtMedCostVars where
  system_cost := ⟨100, none, none, U.base_currency⟩
  heat_exchanger_specific_area := ⟨100, none, none, U.m2_s_per_kg⟩
  thermal_storage_capacity := ⟨5, none, none, U.kWh⟩
  hours_thermal_storage := ⟨5, none, none, U.hour⟩

/-! Collaborator quantities referenced by the constraints but owned by the
unit model / property package / costing utilities, which are outside the
two source files. -/

/-- Modelled from the spec: `make_capital_cost_var` (in
`watertap_contrib.seto.costing.util`, not among the sources) creates
`capital_cost` as a currency-denominated variable ("Capital cost: one-time
equipment/installation cost"). -/
def capital_cost_units : Dims := U.base_currency

/-- Modelled from the spec: `make_fixed_operating_cost_var` (in
`watertap_contrib.seto.costing.util`, not among the sources) creates
`fixed_operating_cost` as a currency-per-year rate ("three additive terms,
each dimensionally a currency-per-year rate"). -/
def fixed_operating_cost_units : Dims := U.currency_per_year

/-- Modelled from the spec: `lt_med.thermal_power_requirement` (owned by the
unit model, not among the sources) is a thermal power
("thermal_storage_capacity = thermal_power_requirement ×
hours_thermal_storage"). -/
def thermal_power_requirement_units : Dims := U.MW

/-- Modelled from the spec: `lt_med.specific_area` (owned by the unit model,
not among the sources) is such that `specific_area / feed_density`
unit-converts to area per mass-rate, i.e. it carries m²/(m³/s) = s/m. -/
def specific_area_units : Dims := ⟨-1, 0, 1, 0⟩

/-- Source: `feed.dens_mass_phase["Liq"]`: a mass density from the property
package. -/
def dens_mass_phase_units : Dims := U.kg_per_m3

/-! ## Dimensional content of the five equality constraints

Each definition below transcribes the corresponding source expression
term by term, replacing every quantity by its dimension. -/

/-- Source: `blk.capacity = pyo.units.convert(dist.flow_vol_phase["Liq"], m³/day)` -/
def capacity_units : Option Dims := some U.m3_per_day

/-- Source: `blk.annual_dist_production = pyo.units.convert(..., m³/year)` -/
def annual_dist_production_units : Option Dims := some U.m3_per_year

/-- left side of `heat_exchanger_specific_area_constraint` -/
def heat_exchanger_specific_area_constraint_lhs_units : Option Dims :=
  some cost_lt_med_surrogate_vars.heat_exchanger_specific_area.units

/-- right side of `heat_exchanger_specific_area_constraint`:
`pyo.units.convert(lt_med.specific_area / feed.dens_mass_phase["Liq"],
to_units=(m² · s) / kg)` -/
def heat_exchanger_specific_area_constraint_rhs_units : Option Dims :=
  uconvert (umul (some specific_area_units) (upow (some dens_mass_phase_units) (-1)))
    U.m2_s_per_kg

/-- left side of `thermal_storage_capacity_constraint` -/
def thermal_storage_capacity_constraint_lhs_units : Option Dims :=
  some cost_lt_med_surrogate_vars.thermal_storage_capacity.units

/-- right side of `thermal_storage_capacity_constraint`:
`lt_med.thermal_power_requirement * blk.hours_thermal_storage` -/
def thermal_storage_capacity_constraint_rhs_units : Option Dims :=
  umul (some thermal_power_requirement_units)
    (some cost_lt_med_surrogate_vars.hours_thermal_storage.units)

/-- left side of `system_cost_constraint` -/
def system_cost_constraint_lhs_units : Option Dims :=
  some cost_lt_med_surrogate_vars.system_cost.units

/-- right side of `system_cost_constraint`:
`(med_sys_A_coeff * capacity ** med_sys_B_coeff) * (1 - cost_fraction_evaporator)
 + cost_fraction_evaporator *
   ((heat_exchanger_specific_area / med_sys_C_coeff) ** med_sys_D_coeff)`,
with the exponents taken at their (fixed) parameter values. -/
def system_cost_constraint_rhs_units : Option Dims :=
  uadd
    (umul
      (umul (some build_lt_med_surrogate_cost_param_block.med_sys_A_coeff.units)
        (upow capacity_units
          build_lt_med_surrogate_cost_param_block.med_sys_B_coeff.initVal))
      (some build_lt_med_surrogate_cost_param_block.cost_fraction_evaporator.units))
    (umul (some build_lt_med_surrogate_cost_param_block.cost_fraction_evaporator.units)
      (upow
        (umul (some cost_lt_med_surrogate_vars.heat_exchanger_specific_area.units)
          (upow (some build_lt_med_surrogate_cost_param_block.med_sys_C_coeff.units) (-1)))
        build_lt_med_surrogate_cost_param_block.med_sys_D_coeff.initVal))

/-- left side of `capital_cost_constraint` -/
def capital_cost_constraint_lhs_units : Option Dims := some capital_cost_units

/-- right side of `capital_cost_constraint`:
`blk.system_cost * blk.capacity
 + lt_med_params.cost_storage_per_kwh * blk.thermal_storage_capacity` -/
def capital_cost_constraint_rhs_units : Option Dims :=
  uadd
    (umul (some cost_lt_med_surrogate_vars.system_cost.units) capacity_units)
    (umul (some build_lt_med_surrogate_cost_param_block.cost_storage_per_kwh.units)
      (some cost_lt_med_surrogate_vars.thermal_storage_capacity.units))

/-- left side of `fixed_operating_cost_constraint` -/
def fixed_operating_cost_constraint_lhs_units : Option Dims :=
  some fixed_operating_cost_units

/-- right side of `fixed_operating_cost_constraint`:
`annual_dist_production * (cost_chemicals + cost_labor + cost_misc)
 + system_cost * (cost_fraction_maintenance + cost_fraction_insurance)
 + convert(brine.flow_vol_phase, m³/year) * cost_disposal_per_vol_brine` -/
def fixed_operating_cost_constraint_rhs_units : Option Dims :=
  uadd
    (uadd
      (umul annual_dist_production_units
        (uadd
          (uadd
            (some build_lt_med_surrogate_cost_param_block.cost_chemicals_per_vol_dist.units)
            (some build_lt_med_surrogate_cost_param_block.cost_labor_per_vol_dist.units))
          (some build_lt_med_surrogate_cost_param_block.cost_misc_per_vol_dist.units)))
      (umul (some cost_lt_med_surrogate_vars.system_cost.units)
        (uadd
          (some build_lt_med_surrogate_cost_param_block.cost_fraction_maintenance.units)
          (some build_lt_med_surrogate_cost_param_block.cost_fraction_insurance.units))))
    (umul (some U.m3_per_year)
      (some build_lt_med_surrogate_cost_param_block.cost_disposal_per_vol_brine.units))

/-! ## The cost expressions as real-valued functions

`**` on Pyomo expressions is real exponentiation; `^` below is `Real.rpow`.
The parenthesisation of `system_cost_rhs` follows the source expression of
`system_cost_constraint` exactly. -/

/-- right-hand side of `system_cost_constraint` as a function of the
parameter values, `capacity` and `heat_exchanger_specific_area`:
`(med_sys_A_coeff * capacity ** med_sys_B_coeff) * (1 - cost_fraction_evaporator)
 + cost_fraction_evaporator *
   ((heat_exchanger_specific_area / med_sys_C_coeff) ** med_sys_D_coeff)` -/
noncomputable def system_cost_rhs (A B C D f_evap capacity hx_area : ℝ) : ℝ :=
  ((A * capacity ^ B) * (1 - f_evap)) + (f_evap * ((hx_area / C) ^ D))

/-- the two-regime blend exactly as the spec writes it:
`system_cost = A·capacity^B·(1 − f_evap) + f_evap·(heat_exchanger_specific_area / C)^D` -/
noncomputable def system_cost_spec_blend (A B C D f_evap capacity hx_area : ℝ) : ℝ :=
  A * capacity ^ B * (1 - f_evap) + f_evap * (hx_area / C) ^ D

/-- the first addend of the `system_cost_constraint` right-hand side -/
noncomputable def system_cost_first_term (A B f_evap capacity : ℝ) : ℝ :=
  (A * capacity ^ B) * (1 - f_evap)

/-- Source: `system_cost_first_term` at the default parameter values of
`build_lt_med_surrogate_cost_param_block`, as a function of capacity -/
noncomputable def first_term_default (capacity : ℝ) : ℝ :=
  system_cost_first_term
    (build_lt_med_surrogate_cost_param_block.med_sys_A_coeff.initVal : ℝ)
    (build_lt_med_surrogate_cost_param_block.med_sys_B_coeff.initVal : ℝ)
    (build_lt_med_surrogate_cost_param_block.cost_fraction_evaporator.initVal : ℝ)
    capacity

/-- the blended `system_cost` right-hand side at the default parameter
values, `capacity = 1000` m³/day and `heat_exchanger_specific_area = 100` -/
noncomputable def system_cost_default_1000_100 : ℝ :=
  system_cost_rhs
    (build_lt_med_surrogate_cost_param_block.med_sys_A_coeff.initVal : ℝ)
    (build_lt_med_surrogate_cost_param_block.med_sys_B_coeff.initVal : ℝ)
    (build_lt_med_surrogate_cost_param_block.med_sys_C_coeff.initVal : ℝ)
    (build_lt_med_surrogate_cost_param_block.med_sys_D_coeff.initVal : ℝ)
    (build_lt_med_surrogate_cost_param_block.cost_fraction_evaporator.initVal : ℝ)
    1000 100

/-! ## Trough surrogate: variables and artifact input bounds -/

/-- Source: `self.heat_load = Var(initialize=1000, bounds=[100, 1000], units=MW)` -/
def heat_load_var : PyomoVar := ⟨1000, some 100, some 1000, U.MW⟩

/-- Source: `self.hours_storage = Var(initialize=20, bounds=[0, 26], units=hour)` -/
def hours_storage_var : PyomoVar := ⟨20, some 0, some 26, U.hour⟩

/-- Source: `self.heat_annual = Var(initialize=1000, units=kWh)` (no bounds) -/
def heat_annual_var : PyomoVar := ⟨1000, none, none, U.kWh⟩

/-- Source: `self.electricity_annual = Var(initialize=20, units=kWh)` (no bounds) -/
def electricity_annual_var : PyomoVar := ⟨20, none, none, U.kWh⟩

/-- Source: `self.input_labels = ["heat_load", "hours_storage"]` -/
def input_labels : List String := ["heat_load", "hours_storage"]

/-- Source: `self.output_labels = ["heat_annual", "electricity_annual"]` -/
def output_labels : List String := ["heat_annual", "electricity_annual"]

/-- Source: `xmin, xmax = [100, 0], [1000, 26]` in `_create_rbf_surrogate` -/
def training_xmin : List ℚ := [100, 0]

/-- Source: `xmin, xmax = [100, 0], [1000, 26]` in `_create_rbf_surrogate` -/
def training_xmax : List ℚ := [1000, 26]

/-- Source: `self.input_bounds = {input_labels[i]: (xmin[i], xmax[i]) for i in
range(len(input_labels))}`, the bounds baked into the trained artifact -/
def input_bounds : List (String × ℚ × ℚ) :=
  (List.range input_labels.length).map fun i =>
    (input_labels.getD i "", (training_xmin.getD i 0, training_xmax.getD i 0))

/-- a value satisfies the hard bounds of a Pyomo variable -/
def within_var_bounds (v : PyomoVar) (x : ℚ) : Prop :=
  (∀ l, v.lb = some l → l ≤ x) ∧ (∀ u, v.ub = some u → x ≤ u)

/-- a labelled value lies inside the artifact's declared input domain -/
def within_input_bounds (bounds : List (String × ℚ × ℚ)) (label : String)
    (x : ℚ) : Prop :=
  ∀ p ∈ bounds, p.1 = label → p.2.1 ≤ x ∧ x ≤ p.2.2

/-! ## Trough surrogate: scaling-factor suffix (`calculate_scaling_factors`)

The scaling suffix holds at most one factor per variable;
`iscale.get_scaling_factor(v)` reads it, and
`iscale.get_scaling_factor(v, default=d)` returns the stored factor when one
exists and `d` otherwise. -/

structure TroughScalingSuffix where
  heat_load : Option ℚ
  hours_storage : Option ℚ
  heat_annual : Option ℚ
  electricity_annual : Option ℚ
  heat : Option ℚ
  electricity : Option ℚ
deriving DecidableEq

/-- one `if iscale.get_scaling_factor(v) is None:` block of
`calculate_scaling_factors`: when no factor is stored, store
`get_scaling_factor(v, default=dflt)`, which is `dflt`; otherwise leave the
stored factor untouched. -/
def set_sf_if_missing (cur : Option ℚ) (dflt : ℚ) : Option ℚ :=
  match cur with
  | some v => some v
  | none => some dflt

/-- Source: `TroughSurrogateData.calculate_scaling_factors`, block by block, with
the default factors of the source. -/
def calculate_scaling_factors (s : TroughScalingSuffix) : TroughScalingSuffix where
  hours_storage := set_sf_if_missing s.hours_storage 1
  heat_load := set_sf_if_missing s.heat_load (1 / 100)
  heat_annual := set_sf_if_missing s.heat_annual (1 / 10000)
  heat := set_sf_if_missing s.heat (1 / 10000)
  electricity_annual := set_sf_if_missing s.electricity_annual (1 / 1000)
  electricity := set_sf_if_missing s.electricity (1 / 1000)

/-! ## Trough surrogate: stdout redirection in `build` and
`_create_rbf_surrogate`

Both methods execute `stream = StringIO(); oldstdout = sys.stdout;
sys.stdout = stream`, run code that may raise (loading the artifact and
building the surrogate block in `build`; `train_surrogate()` in
`_create_rbf_surrogate`), and only afterwards execute
`sys.stdout = oldstdout` — there is no `try/finally`.  The process state
tracks which object `sys.stdout` designates; fresh objects (the `StringIO`
buffer) receive ids not yet allocated. -/

structure PyProcState where
  stdout_id : ℕ
  next_obj : ℕ
deriving DecidableEq

/-- Source: `stream = StringIO(); oldstdout = sys.stdout; sys.stdout = stream`:
returns the new state and the saved `oldstdout`. -/
def redirect_stdout (s : PyProcState) : PyProcState × ℕ :=
  (⟨s.next_obj, s.next_obj + 1⟩, s.stdout_id)

/-- the stdout effect of `TroughSurrogateData.build`: redirect, run the
artifact load / surrogate-block construction (which may raise), and restore
`sys.stdout = oldstdout` only on the non-raising path.  On a raise the
exception propagates with the state as it was at the raise. -/
def trough_build_stdout_effect (s : PyProcState) (load_raises : Bool) :
    Except PyProcState PyProcState :=
  let (s1, oldstdout) := redirect_stdout s
  if load_raises then Except.error s1
  else Except.ok ⟨oldstdout, s1.next_obj⟩

/-- the stdout effect of `TroughSurrogateData._create_rbf_surrogate`:
identical redirect/restore pattern around `train_surrogate()`. -/
def create_rbf_surrogate_stdout_effect (s : PyProcState) (train_raises : Bool) :
    Except PyProcState PyProcState :=
  let (s1, oldstdout) := redirect_stdout s
  if train_raises then Except.error s1
  else Except.ok ⟨oldstdout, s1.next_obj⟩

/-! ## Trough surrogate: cleanup of `solution.pickle` in
`_create_rbf_surrogate`

The filesystem is the list of names of existing files (no duplicate
names). -/

inductive PyOsError
  | file_not_found
  | other_os_error
deriving DecidableEq

/-- Source: `os.remove(name)`: deletes the file or raises `FileNotFoundError` -/
def os_remove (fs : List String) (name : String) : Except PyOsError (List String) :=
  if name ∈ fs then Except.ok (fs.erase name) else Except.error PyOsError.file_not_found

/-- the `try: os.remove("solution.pickle") / except FileNotFoundError: pass /
except Exception as e: raise e` block of `_create_rbf_surrogate` -/
def remove_solution_pickle (fs : List String) : Except PyOsError (List String) :=
  match os_remove fs "solution.pickle" with
  | Except.ok fs2 => Except.ok fs2
  | Except.error PyOsError.file_not_found => Except.ok fs
  | Except.error e => Except.error e

/-- the filesystem effect of `trainer.train_surrogate()` (external PySMO
code): it autogenerates `solution.pickle` in the working directory; whether
it does on a given run is left open as a parameter. -/
def train_surrogate_fs (fs : List String) (writes_solution : Bool) : List String :=
  if writes_solution then
    if "solution.pickle" ∈ fs then fs else "solution.pickle" :: fs
  else fs

/-- the filesystem effect of `_create_rbf_surrogate`: training, then the
cleanup block, then `rbf_surr.save_to_file(output_filename, overwrite=True)`
when an output filename is given. -/
def create_rbf_surrogate_fs (fs : List String) (writes_solution : Bool)
    (output_filename : Option String) : Except PyOsError (List String) :=
  match remove_solution_pickle (train_surrogate_fs fs writes_solution) with
  | Except.ok fs2 =>
      Except.ok (match output_filename with
        | some f => if f ∈ fs2 then fs2 else f :: fs2
        | none => fs2)
  | Except.error e => Except.error e

/-! ## Dataset sampling and the training/validation split
(`_get_surrogate_data`)

`pandas.DataFrame.sample(n=n)` draws `n` rows without replacement.  When no
`random_state=` is passed — as in `_get_surrogate_data` — the draw is driven
by the process-global numpy generator, modelled as an ambient stream
`g : ℕ → ℕ` of raw draws that is not derived from the call's arguments.
`split_training_validation` (external idaes helper) shuffles the sample with
a generator seeded by the `seed=` argument and cuts it at
`int(training_fraction * len)`. -/

/-- draw `n` rows without replacement from `rem`, the `k`-th raw draw of the
generator choosing the index `g k % (rows remaining)` -/
def sampleWR {α : Type} (g : ℕ → ℕ) : ℕ → ℕ → List α → List α
  | _, 0, _ => []
  | k, n + 1, rem =>
    if h : 0 < rem.length then
      rem.get ⟨g k % rem.length, Nat.mod_lt _ h⟩ ::
        sampleWR g (k + 1) n (rem.eraseIdx (g k % rem.length))
    else []

/-- a deterministic pseudo-random stream derived from a seed (stands for
`numpy.random.RandomState(seed)`) -/
def seeded_gen (seed : ℕ) : ℕ → ℕ :=
  fun i => (1103515245 * (seed + i) + 12345) % 2147483648

/-- Source: `DataFrame.sample(n=n, random_state=rs)`: without replacement; seeded
when `rs` is given, otherwise driven by the ambient generator `g` -/
def pandas_sample {α : Type} (g : ℕ → ℕ) (random_state : Option ℕ)
    (df : List α) (n : ℕ) : List α :=
  match random_state with
  | some seed => sampleWR (seeded_gen seed) 0 n df
  | none => sampleWR g 0 n df

/-- Source: `split_training_validation(data, training_fraction, seed)`: shuffle the
rows with the seeded generator, then cut at
`int(training_fraction * len(data))`. -/
def split_training_validation {α : Type} (data : List α) (training_fraction : ℚ)
    (seed : ℕ) : List α × List α :=
  let n_train : ℕ := (⌊training_fraction * data.length⌋).toNat
  let shuffled := sampleWR (seeded_gen seed) 0 data.length data
  (shuffled.take n_train, shuffled.drop n_train)

/-- Source: `TroughSurrogateData._get_surrogate_data`: sample `n_samples` rows with
an unseeded `DataFrame.sample`, then split with `seed=len(self.data)`;
returns the sample together with the training/validation pair. -/
def _get_surrogate_data {α : Type} (g : ℕ → ℕ) (pickle_df : List α)
    (n_samples : ℕ) (training_fraction : ℚ) : List α × (List α × List α) :=
  let data := pandas_sample g none pickle_df n_samples
  (data, split_training_validation data training_fraction data.length)

/-- helper value for evaluating the power-law capital curve at
`capacity = 1000`: the positive real `1000^(27/200)`. -/
noncomputable def y1000 : ℝ := (1000 : ℝ) ^ ((27 : ℝ) / 200)

/-! ## Helper lemmas -/

theorem cons_eraseIdx_perm {α : Type} :
    ∀ (l : List α) (i : ℕ) (h : i < l.length),
      List.Perm (l.get ⟨i, h⟩ :: l.eraseIdx i) l
  | _ :: _, 0, _ => List.Perm.refl _
  | a :: l, i + 1, h => by
    have hi : i < l.length := Nat.lt_of_succ_lt_succ h
    show List.Perm (l.get ⟨i, hi⟩ :: a :: l.eraseIdx i) (a :: l)
    exact (List.Perm.swap a _ _).trans ((cons_eraseIdx_perm l i hi).cons a)

theorem sampleWR_subperm {α : Type} (g : ℕ → ℕ) :
    ∀ (n k : ℕ) (rem : List α), List.Subperm (sampleWR g k n rem) rem
  | 0, _, _ => List.nil_subperm
  | n + 1, k, rem => by
    by_cases h : 0 < rem.length
    · simp only [sampleWR, dif_pos h]
      have ih := sampleWR_subperm g n (k + 1) (rem.eraseIdx (g k % rem.length))
      have hcons :=
        (List.subperm_cons (rem.get ⟨g k % rem.length, Nat.mod_lt _ h⟩)).mpr ih
      exact hcons.trans (cons_eraseIdx_perm rem _ _).subperm
    · simp only [sampleWR, dif_neg h]
      exact List.nil_subperm

theorem sampleWR_length {α : Type} (g : ℕ → ℕ) :
    ∀ (n k : ℕ) (rem : List α), n ≤ rem.length → (sampleWR g k n rem).length = n
  | 0, _, _, _ => rfl
  | n + 1, k, rem, hn => by
    have h : 0 < rem.length := Nat.lt_of_lt_of_le (Nat.succ_pos n) hn
    simp only [sampleWR, dif_pos h, List.length_cons]
    have hlen : (rem.eraseIdx (g k % rem.length)).length = rem.length - 1 := by
      rw [List.length_eraseIdx]
      simp [Nat.mod_lt _ h]
    have hn2 : n ≤ (rem.eraseIdx (g k % rem.length)).length := by omega
    rw [sampleWR_length g n (k + 1) _ hn2]

theorem subperm_nodup {α : Type} {l₁ l₂ : List α} (h : List.Subperm l₁ l₂)
    (h2 : l₂.Nodup) : l₁.Nodup := by
  obtain ⟨l, hp, hs⟩ := h
  exact hp.nodup_iff.mp (h2.sublist hs)

theorem set_sf_if_missing_eq (cur : Option ℚ) (d : ℚ) :
    set_sf_if_missing cur d = some (cur.getD d) := by
  cases cur <;> rfl

theorem y1000_pos : 0 < y1000 := Real.rpow_pos_of_pos (by norm_num) _

theorem y1000_pow : y1000 ^ (200 : ℕ) = (1000 : ℝ) ^ (27 : ℕ) := by
  rw [y1000, ← Real.rpow_natCast ((1000 : ℝ) ^ ((27 : ℝ) / 200)) 200,
    ← Real.rpow_mul (by norm_num)]
  norm_num

theorem y1000_bounds : 2.5402 < y1000 ∧ y1000 < 2.5418 := by
  constructor
  · apply lt_of_pow_lt_pow_left₀ 200 (le_of_lt y1000_pos)
    rw [y1000_pow]
    norm_num
  · apply lt_of_pow_lt_pow_left₀ 200 (by norm_num)
    rw [y1000_pow]
    norm_num

theorem first_term_default_1000_eq : first_term_default 1000 = 3774.6 / y1000 := by
  have hexp : ((-0.135 : ℚ) : ℝ) = -((27 : ℝ) / 200) := by norm_num
  have hneg : (1000 : ℝ) ^ ((-0.135 : ℚ) : ℝ) = y1000⁻¹ := by
    rw [hexp, Real.rpow_neg (by norm_num)]
    rfl
  show ((6291 : ℚ) : ℝ) * (1000 : ℝ) ^ ((-0.135 : ℚ) : ℝ) * (1 - ((0.4 : ℚ) : ℝ)) = _
  rw [hneg]
  have h6 : ((6291 : ℚ) : ℝ) = 6291 := by norm_num
  have h4 : (1 - ((0.4 : ℚ) : ℝ)) = 0.6 := by norm_num
  rw [h6, h4, div_eq_mul_inv]
  ring_nf

theorem first_term_default_1000_bounds :
    1485 < first_term_default 1000 ∧ first_term_default 1000 < 1486 := by
  rw [first_term_default_1000_eq]
  obtain ⟨hlo, hhi⟩ := y1000_bounds
  have hy := y1000_pos
  constructor
  · rw [lt_div_iff₀ hy]
    nlinarith
  · rw [div_lt_iff₀ hy]
    nlinarith

/-! ## Claim theorems -/

/-- Claim C1, counterexample: `_get_surrogate_data` calls
`DataFrame.sample(n=n_samples)` with no `random_state=`, so the drawn sample
depends on the ambient process-global generator and not only on
(dataset, N, seed): two runs of the sampler on the identical dataset `[10, 20]`
with `N = 1` and the identical (size-derived) split seed, reached with the
global generator in two states it can legitimately be in, return different
samples, hence different outputs. -/
theorem C1_counterexample :
    _get_surrogate_data (fun _ => 0) [10, 20] 1 (4 / 5) ≠
      _get_surrogate_data (fun _ => 1) [10, 20] 1 (4 / 5) := by
  intro hcontra
  have h1 := congrArg Prod.fst hcontra
  have h2 : pandas_sample (fun _ => (0 : ℕ)) none [10, 20] 1 ≠
      pandas_sample (fun _ => 1) none [10, 20] 1 := by decide
  exact h2 h1

/-- Claim C1, amended: the draw of `_get_surrogate_data` is without
replacement — on a duplicate-free dataset with `n_samples ≤ len` it returns
`n_samples` pairwise-distinct rows of the dataset — but it is unseeded: the
sample is a function of the ambient generator state, and only runs whose
drawn samples coincide are guaranteed to produce identical
training/validation splits (the split itself is deterministic with
`seed = len(data)`). -/
theorem C1_theorem (g : ℕ → ℕ) (pickle_df : List ℕ) (n_samples : ℕ)
    (training_fraction : ℚ) (hn : n_samples ≤ pickle_df.length)
    (hnd : pickle_df.Nodup) :
    (pandas_sample g none pickle_df n_samples).length = n_samples ∧
    (pandas_sample g none pickle_df n_samples).Nodup ∧
    (pandas_sample g none pickle_df n_samples) ⊆ pickle_df ∧
    ∀ g2 : ℕ → ℕ,
      pandas_sample g none pickle_df n_samples =
        pandas_sample g2 none pickle_df n_samples →
      _get_surrogate_data g pickle_df n_samples training_fraction =
        _get_surrogate_data g2 pickle_df n_samples training_fraction := by
  have hsub := sampleWR_subperm g n_samples 0 pickle_df
  refine ⟨sampleWR_length g n_samples 0 pickle_df hn, subperm_nodup hsub hnd,
    hsub.subset, ?_⟩
  intro g2 hsamples
  simp only [_get_surrogate_data]
  rw [show pandas_sample g none pickle_df n_samples =
    sampleWR g 0 n_samples pickle_df from rfl] at hsamples
  rw [show pandas_sample g2 none pickle_df n_samples =
    sampleWR g2 0 n_samples pickle_df from rfl] at hsamples
  simp only [pandas_sample, hsamples]

/-- Claim C1, witness for the amended theorem at the dataset `[10, 20, 30]`
with `N = 2`. -/
theorem C1_witness :
    (2 ≤ ([10, 20, 30] : List ℕ).length ∧ ([10, 20, 30] : List ℕ).Nodup) ∧
    ((pandas_sample (fun i => i) none [10, 20, 30] 2).length = 2 ∧
      (pandas_sample (fun i => i) none [10, 20, 30] 2).Nodup ∧
      (pandas_sample (fun i => i) none [10, 20, 30] 2) ⊆ [10, 20, 30] ∧
      ∀ g2 : ℕ → ℕ,
        pandas_sample (fun i => i) none [10, 20, 30] 2 =
          pandas_sample g2 none [10, 20, 30] 2 →
        _get_surrogate_data (fun i => i) [10, 20, 30] 2 (4 / 5) =
          _get_surrogate_data g2 [10, 20, 30] 2 (4 / 5)) :=
  ⟨⟨by decide, by decide⟩,
    C1_theorem (fun i => i) [10, 20, 30] 2 (4 / 5) (by decide) (by decide)⟩

/-- Claim C2, counterexample: `system_cost_constraint` is not dimensionally
consistent — its left side carries the currency dimension while its right
side, `(A * capacity ** B) * (1 - f_evap) + f_evap * ((area / C) ** D)` with
dimensionless coefficients, has no well-defined dimension at all (its two
addends carry `(m³/day)^(-0.135)` and `(m²·s/kg)^0.8`). -/
theorem C2_counterexample :
    system_cost_constraint_rhs_units ≠ system_cost_constraint_lhs_units := by
  have h : system_cost_constraint_rhs_units = none := by
    norm_num [system_cost_constraint_rhs_units, uadd, umul, upow, Dims.mul,
      Dims.dpow, capacity_units, U.m3_per_day, U.dimensionless, U.m2_s_per_kg,
      U.base_currency, build_lt_med_surrogate_cost_param_block,
      cost_lt_med_surrogate_vars, Dims.mk.injEq]
  rw [h]
  exact fun hc => Option.noConfusion hc

/-- Claim C2, amended: of the five equality constraints, only
`heat_exchanger_specific_area_constraint` and
`thermal_storage_capacity_constraint` are dimensionally consistent; the
right-hand sides of `system_cost_constraint`, `capital_cost_constraint` and
`fixed_operating_cost_constraint` each sum incommensurable terms (the
system-cost blend mixes `(m³/day)^(-0.135)` and `(m²·s/kg)^0.8` against
currency; capital cost adds currency·m³/day to currency; fixed operating
cost adds a plain currency term to currency/year terms), so none of the
three cost constraints balances against its left side. -/
theorem C2_theorem :
    heat_exchanger_specific_area_constraint_rhs_units =
      heat_exchanger_specific_area_constraint_lhs_units ∧
    thermal_storage_capacity_constraint_rhs_units =
      thermal_storage_capacity_constraint_lhs_units ∧
    system_cost_constraint_rhs_units = none ∧
    capital_cost_constraint_rhs_units = none ∧
    fixed_operating_cost_constraint_rhs_units = none ∧
    system_cost_constraint_lhs_units ≠ none ∧
    capital_cost_constraint_lhs_units ≠ none ∧
    fixed_operating_cost_constraint_lhs_units ≠ none := by
  refine ⟨?_, ?_, ?_, ?_, ?_, ?_, ?_, ?_⟩
  · norm_num [heat_exchanger_specific_area_constraint_rhs_units,
      heat_exchanger_specific_area_constraint_lhs_units, uconvert, umul, upow,
      Dims.mul, Dims.dpow, specific_area_units, dens_mass_phase_units,
      U.kg_per_m3, U.m2_s_per_kg, cost_lt_med_surrogate_vars, Dims.mk.injEq]
  · norm_num [thermal_storage_capacity_constraint_rhs_units,
      thermal_storage_capacity_constraint_lhs_units, umul, Dims.mul,
      thermal_power_requirement_units, U.MW, U.hour, U.kWh,
      cost_lt_med_surrogate_vars, Dims.mk.injEq]
  · norm_num [system_cost_constraint_rhs_units, uadd, umul, upow, Dims.mul,
      Dims.dpow, capacity_units, U.m3_per_day, U.dimensionless, U.m2_s_per_kg,
      U.base_currency, build_lt_med_surrogate_cost_param_block,
      cost_lt_med_surrogate_vars, Dims.mk.injEq]
  · norm_num [capital_cost_constraint_rhs_units, uadd, umul, Dims.mul,
      capacity_units, U.m3_per_day, U.base_currency, U.currency_per_kWh,
      U.kWh, build_lt_med_surrogate_cost_param_block,
      cost_lt_med_surrogate_vars, Dims.mk.injEq]
  · norm_num [fixed_operating_cost_constraint_rhs_units, uadd, umul, Dims.mul,
      annual_dist_production_units, U.m3_per_year, U.currency_per_m3,
      U.dimensionless, U.base_currency,
      build_lt_med_surrogate_cost_param_block, cost_lt_med_surrogate_vars,
      Dims.mk.injEq]
  · exact fun h => Option.noConfusion h
  · exact fun h => Option.noConfusion h
  · exact fun h => Option.noConfusion h

/-- Claim C3, counterexample: none of the four variables that
`cost_lt_med_surrogate` itself creates is constructed with a lower bound —
`system_cost`, `heat_exchanger_specific_area`, `thermal_storage_capacity`
and `hours_thermal_storage` all have absent bounds, not a lower bound of
0. -/
theorem C3_counterexample :
    cost_lt_med_surrogate_vars.system_cost.lb ≠ some 0 ∧
    cost_lt_med_surrogate_vars.heat_exchanger_specific_area.lb ≠ some 0 ∧
    cost_lt_med_surrogate_vars.thermal_storage_capacity.lb ≠ some 0 ∧
    cost_lt_med_surrogate_vars.hours_thermal_storage.lb ≠ some 0 := by
  refine ⟨?_, ?_, ?_, ?_⟩ <;> simp [cost_lt_med_surrogate_vars]

/-- Claim C3, amended: the cost and flow variables created in the body of
`cost_lt_med_surrogate` (`system_cost`, `heat_exchanger_specific_area`,
`thermal_storage_capacity`, `hours_thermal_storage`) are constructed with no
bounds at all; non-negativity (lower bound 0) bounds appear only on the
parameter-block coefficients, and even there the four `med_sys_*`
power-law coefficients are unbounded.  The block performs no other input
validation. -/
theorem C3_theorem :
    (cost_lt_med_surrogate_vars.system_cost.lb = none ∧
      cost_lt_med_surrogate_vars.system_cost.ub = none) ∧
    (cost_lt_med_surrogate_vars.heat_exchanger_specific_area.lb = none ∧
      cost_lt_med_surrogate_vars.heat_exchanger_specific_area.ub = none) ∧
    (cost_lt_med_surrogate_vars.thermal_storage_capacity.lb = none ∧
      cost_lt_med_surrogate_vars.thermal_storage_capacity.ub = none) ∧
    (cost_lt_med_surrogate_vars.hours_thermal_storage.lb = none ∧
      cost_lt_med_surrogate_vars.hours_thermal_storage.ub = none) ∧
    build_lt_med_surrogate_cost_param_block.cost_fraction_evaporator.lb = some 0 ∧
    build_lt_med_surrogate_cost_param_block.cost_fraction_maintenance.lb = some 0 ∧
    build_lt_med_surrogate_cost_param_block.cost_fraction_insurance.lb = some 0 ∧
    build_lt_med_surrogate_cost_param_block.cost_storage_per_kwh.lb = some 0 ∧
    build_lt_med_surrogate_cost_param_block.cost_chemicals_per_vol_dist.lb = some 0 ∧
    build_lt_med_surrogate_cost_param_block.cost_labor_per_vol_dist.lb = some 0 ∧
    build_lt_med_surrogate_cost_param_block.cost_misc_per_vol_dist.lb = some 0 ∧
    build_lt_med_surrogate_cost_param_block.cost_disposal_per_vol_brine.lb = some 0 ∧
    build_lt_med_surrogate_cost_param_block.specific_electric_energy_consumption.lb
      = some 0 ∧
    build_lt_med_surrogate_cost_param_block.med_sys_A_coeff.lb = none ∧
    build_lt_med_surrogate_cost_param_block.med_sys_B_coeff.lb = none ∧
    build_lt_med_surrogate_cost_param_block.med_sys_C_coeff.lb = none ∧
    build_lt_med_surrogate_cost_param_block.med_sys_D_coeff.lb = none :=
  ⟨⟨rfl, rfl⟩, ⟨rfl, rfl⟩, ⟨rfl, rfl⟩, ⟨rfl, rfl⟩, rfl, rfl, rfl, rfl, rfl,
    rfl, rfl, rfl, rfl, rfl, rfl, rfl, rfl⟩

/-- Claim C4, counterexample: with the default parameters, `capacity = 1000`
and `heat_exchanger_specific_area = 100`, the first term of the
`system_cost` right-hand side is `6291 · 1000^(-0.135) · 0.6 ≈ 1485.5`, not
`≈ 1504.9`: it differs from 1504.9 by more than 10. -/
theorem C4_counterexample : ¬ (|first_term_default 1000 - 1504.9| ≤ 10) := by
  intro habs
  rw [abs_le] at habs
  have h := first_term_default_1000_bounds.2
  linarith [habs.1]

/-- Claim C4, amended: with the default parameter values, `capacity = 1000`
m³/day and `heat_exchanger_specific_area = 100`, the first term of the
`system_cost` constraint evaluates to `6291 × 1000^(−0.135) × 0.6 ≈ 1485.5`
(it lies strictly between 1485 and 1486), and the blended `system_cost`
equals that term plus `0.4 × (100/302.01)^0.8`. -/
theorem C4_theorem :
    (1485 < first_term_default 1000 ∧ first_term_default 1000 < 1486) ∧
    system_cost_default_1000_100 =
      first_term_default 1000 + 0.4 * ((100 : ℝ) / 302.01) ^ ((0.8 : ℚ) : ℝ) := by
  refine ⟨first_term_default_1000_bounds, ?_⟩
  have hft : first_term_default 1000 =
      ((6291 : ℚ) : ℝ) * (1000 : ℝ) ^ ((-0.135 : ℚ) : ℝ) * (1 - ((0.4 : ℚ) : ℝ)) :=
    rfl
  show ((6291 : ℚ) : ℝ) * (1000 : ℝ) ^ ((-0.135 : ℚ) : ℝ) * (1 - ((0.4 : ℚ) : ℝ))
      + ((0.4 : ℚ) : ℝ) * (((100 : ℝ) / ((302.01 : ℚ) : ℝ)) ^ ((0.8 : ℚ) : ℝ)) =
    first_term_default 1000 + 0.4 * ((100 : ℝ) / 302.01) ^ ((0.8 : ℚ) : ℝ)
  rw [hft]
  norm_num

/-- Claim C5: the `system_cost` equality installed by `cost_lt_med_surrogate`
is exactly the spec's two-regime blend
`A·capacity^B·(1 − f_evap) + f_evap·(heat_exchanger_specific_area / C)^D`. -/
theorem C5_theorem (A B C D f_evap capacity hx_area : ℝ) :
    system_cost_rhs A B C D f_evap capacity hx_area =
      system_cost_spec_blend A B C D f_evap capacity hx_area := rfl

/-- Claim C6: `calculate_scaling_factors` assigns a factor to each of the six
variables only when none is stored — a stored factor is returned unchanged
(`Option.getD` keeps it) and is never overwritten — and the defaults applied
when missing are 1e-2 for `heat_load` and 1e-4 for `heat_annual` (with 1 for
`hours_storage`, 1e-4 for `heat`, and 1e-3 for `electricity_annual` and
`electricity`). -/
theorem C6_theorem (s : TroughScalingSuffix) :
    (calculate_scaling_factors s).heat_load = some (s.heat_load.getD (1 / 100)) ∧
    (calculate_scaling_factors s).heat_annual =
      some (s.heat_annual.getD (1 / 10000)) ∧
    (calculate_scaling_factors s).hours_storage = some (s.hours_storage.getD 1) ∧
    (calculate_scaling_factors s).heat = some (s.heat.getD (1 / 10000)) ∧
    (calculate_scaling_factors s).electricity_annual =
      some (s.electricity_annual.getD (1 / 1000)) ∧
    (calculate_scaling_factors s).electricity =
      some (s.electricity.getD (1 / 1000)) :=
  ⟨set_sf_if_missing_eq _ _, set_sf_if_missing_eq _ _, set_sf_if_missing_eq _ _,
    set_sf_if_missing_eq _ _, set_sf_if_missing_eq _ _, set_sf_if_missing_eq _ _⟩

/-- Claim C7: on a duplicate-free filesystem, and provided the requested
output artifact is not itself named `solution.pickle`, every return of
`_create_rbf_surrogate` is a non-raising return on which `solution.pickle`
is absent — whether or not training wrote it (the `except FileNotFoundError:
pass` makes the cleanup tolerate prior absence). -/
theorem C7_theorem (fs : List String) (writes_solution : Bool)
    (output_filename : Option String)
    (hnd : fs.Nodup) (hout : output_filename ≠ some "solution.pickle") :
    ∃ fs2,
      create_rbf_surrogate_fs fs writes_solution output_filename =
        Except.ok fs2 ∧ "solution.pickle" ∉ fs2 := by
  have hafter : ∃ fs1,
      remove_solution_pickle (train_surrogate_fs fs writes_solution) =
        Except.ok fs1 ∧ "solution.pickle" ∉ fs1 := by
    have hnd1 : (train_surrogate_fs fs writes_solution).Nodup := by
      unfold train_surrogate_fs
      split
      · split
        · exact hnd
        · exact List.Nodup.cons (by assumption) hnd
      · exact hnd
    unfold remove_solution_pickle os_remove
    by_cases hmem : "solution.pickle" ∈ train_surrogate_fs fs writes_solution
    · rw [if_pos hmem]
      exact ⟨_, rfl, hnd1.not_mem_erase⟩
    · rw [if_neg hmem]
      exact ⟨_, rfl, hmem⟩
  obtain ⟨fs1, hok, hnotin⟩ := hafter
  unfold create_rbf_surrogate_fs
  rw [hok]
  cases output_filename with
  | none => exact ⟨fs1, rfl, hnotin⟩
  | some f =>
    by_cases hf : f ∈ fs1
    · exact ⟨fs1, by simp [hf], hnotin⟩
    · refine ⟨f :: fs1, by simp [hf], ?_⟩
      intro hmem
      rcases List.mem_cons.mp hmem with h1 | h1
      · exact hout (by rw [h1])
      · exact hnotin h1

/-- Claim C7, witness: a run on the filesystem `["data.pkl"]` with training
writing `solution.pickle` and output saved to `trough_surrogate.json`. -/
theorem C7_witness :
    (["data.pkl"] : List String).Nodup ∧
    (some "trough_surrogate.json" ≠ some "solution.pickle") ∧
    ∃ fs2,
      create_rbf_surrogate_fs ["data.pkl"] true (some "trough_surrogate.json") =
        Except.ok fs2 ∧ "solution.pickle" ∉ fs2 :=
  ⟨by decide, by decide,
    C7_theorem ["data.pkl"] true (some "trough_surrogate.json") (by decide)
      (by decide)⟩

/-- Claim C8: with the default parameter values (so `B = -0.135 < 0` and
`f_evap = 0.4`), the first system-cost term `A·capacity^B·(1 − f_evap)` is
strictly decreasing in capacity: for positive capacities `c1 < c2` the term
at `c2` is strictly below the term at `c1`. -/
theorem C8_theorem (c1 c2 : ℝ) (h1 : 0 < c1) (h12 : c1 < c2) :
    first_term_default c2 < first_term_default c1 := by
  have hB : ((-0.135 : ℚ) : ℝ) < 0 := by norm_num
  have hpow : c2 ^ ((-0.135 : ℚ) : ℝ) < c1 ^ ((-0.135 : ℚ) : ℝ) :=
    Real.rpow_lt_rpow_of_neg h1 h12 hB
  show ((6291 : ℚ) : ℝ) * c2 ^ ((-0.135 : ℚ) : ℝ) * (1 - ((0.4 : ℚ) : ℝ)) <
    ((6291 : ℚ) : ℝ) * c1 ^ ((-0.135 : ℚ) : ℝ) * (1 - ((0.4 : ℚ) : ℝ))
  have h6 : ((6291 : ℚ) : ℝ) = 6291 := by norm_num
  have h4 : (1 - ((0.4 : ℚ) : ℝ)) = 0.6 := by norm_num
  rw [h6, h4]
  linarith

/-- Claim C8, witness at the capacity pair (1, 2). -/
theorem C8_witness :
    (0 : ℝ) < 1 ∧ (1 : ℝ) < 2 ∧ first_term_default 2 < first_term_default 1 :=
  ⟨by norm_num, by norm_num, C8_theorem 1 2 (by norm_num) (by norm_num)⟩

/-- Claim C9: `build` and `_create_rbf_surrogate` both set the process-wide
`sys.stdout` to a fresh in-memory buffer and restore the saved stdout only
on the non-exceptional path: the successful run returns with `sys.stdout`
back at the original object, while a raise during artifact loading /
training propagates with `sys.stdout` still the buffer, which is distinct
from the original. -/
theorem C9_theorem (s : PyProcState) (h : s.stdout_id < s.next_obj) :
    trough_build_stdout_effect s false = Except.ok ⟨s.stdout_id, s.next_obj + 1⟩ ∧
    trough_build_stdout_effect s true = Except.error ⟨s.next_obj, s.next_obj + 1⟩ ∧
    create_rbf_surrogate_stdout_effect s false = Except.ok ⟨s.stdout_id, s.next_obj + 1⟩ ∧
    create_rbf_surrogate_stdout_effect s true = Except.error ⟨s.next_obj, s.next_obj + 1⟩ ∧
    s.next_obj ≠ s.stdout_id :=
  ⟨rfl, rfl, rfl, rfl, Nat.ne_of_gt h⟩

/-- Claim C9, witness at the initial process state. -/
theorem C9_witness :
    (0 : ℕ) < 1 ∧
    (trough_build_stdout_effect ⟨0, 1⟩ false = Except.ok ⟨0, 2⟩ ∧
      trough_build_stdout_effect ⟨0, 1⟩ true = Except.error ⟨1, 2⟩ ∧
      create_rbf_surrogate_stdout_effect ⟨0, 1⟩ false = Except.ok ⟨0, 2⟩ ∧
      create_rbf_surrogate_stdout_effect ⟨0, 1⟩ true = Except.error ⟨1, 2⟩ ∧
      (1 : ℕ) ≠ 0) :=
  ⟨by decide, C9_theorem ⟨0, 1⟩ (by decide)⟩

/-- Claim C10: the live surrogate input variables carry hard bounds
identical to the input bounds hard-coded into the artifact at training time
— `heat_load` in [100, 1000] and `hours_storage` in [0, 26] — so every
point satisfying the variables' bounds lies inside the artifact's declared
input domain. -/
theorem C10_theorem (h hs : ℚ)
    (hh : within_var_bounds heat_load_var h)
    (hhs : within_var_bounds hours_storage_var hs) :
    input_bounds = [("heat_load", (100, 1000)), ("hours_storage", (0, 26))] ∧
    (heat_load_var.lb = some 100 ∧ heat_load_var.ub = some 1000) ∧
    (hours_storage_var.lb = some 0 ∧ hours_storage_var.ub = some 26) ∧
    within_input_bounds input_bounds "heat_load" h ∧
    within_input_bounds input_bounds "hours_storage" hs := by
  have hb : input_bounds = [("heat_load", (100, 1000)), ("hours_storage", (0, 26))] :=
    rfl
  refine ⟨hb, ⟨rfl, rfl⟩, ⟨rfl, rfl⟩, ?_, ?_⟩
  · intro p hp hlabel
    rw [hb] at hp
    rcases List.mem_cons.mp hp with h1 | h1
    · rw [h1]
      exact ⟨hh.1 100 rfl, hh.2 1000 rfl⟩
    · rcases List.mem_cons.mp h1 with h2 | h2
      · rw [h2] at hlabel
        exact absurd hlabel (by decide)
      · exact absurd h2 (List.not_mem_nil p)
  · intro p hp hlabel
    rw [hb] at hp
    rcases List.mem_cons.mp hp with h1 | h1
    · rw [h1] at hlabel
      exact absurd hlabel (by decide)
    · rcases List.mem_cons.mp h1 with h2 | h2
      · rw [h2]
        exact ⟨hhs.1 0 rfl, hhs.2 26 rfl⟩
      · exact absurd h2 (List.not_mem_nil p)

/-- Claim C10, witness at the in-bounds point
`(heat_load, hours_storage) = (500, 10)`. -/
theorem C10_witness :
    (within_var_bounds heat_load_var 500 ∧ within_var_bounds hours_storage_var 10) ∧
    (input_bounds = [("heat_load", (100, 1000)), ("hours_storage", (0, 26))] ∧
      (heat_load_var.lb = some 100 ∧ heat_load_var.ub = some 1000) ∧
      (hours_storage_var.lb = some 0 ∧ hours_storage_var.ub = some 26) ∧
      within_input_bounds input_bounds "heat_load" 500 ∧
      within_input_bounds input_bounds "hours_storage" 10) := by
  have hh : within_var_bounds heat_load_var 500 := by
    constructor
    · intro l hl
      injection hl with hl2
      rw [← hl2]
      norm_num
    · intro u hu
      injection hu with hu2
      rw [← hu2]
      norm_num
  have hhs : within_var_bounds hours_storage_var 10 := by
    constructor
    · intro l hl
      injection hl with hl2
      rw [← hl2]
      norm_num
    · intro u hu
      injection hu with hu2
      rw [← hu2]
      norm_num
  exact ⟨⟨hh, hhs⟩, C10_theorem 500 10 hh hhs⟩

end WatertapSeto
